import Mathlib

set_option maxRecDepth 100000
set_option maxHeartbeats 2000000

/-!
Shallow embedding of the core of the `ic-alloy` repository:

* `crates/signer-icp/src/utils.rs`   — `ecdsa_key_id`, `get_public_key`,
  `address_for_public_key`, `y_parity`;
* `crates/signer-icp/src/signer.rs`  — `IcpSigner`, `IcpSignerError`,
  `IcpSigner::new`, `IcpSigner::sign_hash_inner`;
* `crates/transport-icp/src/evm_rpc.rs` — the candid enums (`RpcService`,
  `RpcError`, …) and the generated binding `EvmRpc::request`;
* `crates/transport-icp/src/lib.rs`  — `IcpTransport`, `IcpConfig`,
  `IcpTransport::request_icp` and its error mapping;
* `crates/rpc-client/src/icp_poller.rs` — `IcpPollerBuilder`, `ParamsOnce`,
  `start`/`stop`/`into_stream` and the per-tick closure, modelled as an
  explicit event-step relation.

External collaborators (the `k256` recovery primitive, `serde` and the
candid call layer) are passed in as explicit function parameters; the
standard functions `keccak256` (from `alloy_primitives`) and the SEC1
public-key format of `secp256k1` are implemented concretely because the
specification's address formula refers to them.

Machine integers are modelled as `Nat` with explicit `% 2 ^ 64` where
64-bit overflow matters.  Rust panics (`unwrap`, `panic!`, dead
`unreachable` code) are modelled by the explicit outcome type `PanicOr`,
kept separate from `Except`-style error values, because several spec
claims distinguish "returns an error value" from "aborts".
-/

namespace IcAlloy

/-! ## Keccak-256 (the `alloy_primitives::keccak256` collaborator)

Lanes are `Nat` values below `2 ^ 64`; the state is a list of 25 lanes,
index `x + 5 * y`.  Ethereum's `keccak256` uses the original Keccak
padding (`0x01 … 0x80`), rate 136 bytes, 24 rounds. -/

/-- One step of the Keccak degree-8 LFSR (`x⁸+x⁶+x⁵+x⁴+1`, byte form). -/
def rcUpdate (R : Nat) : Nat :=
  if R / 128 % 2 = 1 then ((R * 2) ^^^ 113) % 256 else R * 2 % 256

/-- Seven LFSR draws accumulate one round constant: draw `j` contributes
bit `2 ^ j - 1` when the LFSR output bit is set. -/
def rcSeven (start : Nat × Nat) : Nat × Nat :=
  (List.range 7).foldl
    (fun Racc j =>
      (rcUpdate Racc.1, if Racc.1 % 2 = 1 then Racc.2 ||| 1 <<< (2 ^ j - 1) else Racc.2))
    start

def rcListAux : Nat → Nat → List Nat
  | 0, _ => []
  | n + 1, R =>
    let step := rcSeven (R, 0)
    step.2 :: rcListAux n step.1

/-- The 24 Keccak-f[1600] round constants, generated from the LFSR. -/
def keccakRC : List Nat := rcListAux 24 1

/-- The ρ/π walk: starting at lane `(1, 0)`, step `t` assigns rotation
`(t+1)(t+2)/2 mod 64` and moves `(x, y) ↦ (y, (2x+3y) mod 5)`. -/
def rhoWalkAux : Nat → Nat → Nat → Nat → List (Nat × Nat)
  | 0, _, _, _ => []
  | f + 1, x, y, t =>
    (x + 5 * y, (t + 1) * (t + 2) / 2 % 64) :: rhoWalkAux f y ((2 * x + 3 * y) % 5) (t + 1)

def rhoAssoc : List (Nat × Nat) := rhoWalkAux 24 1 0 0

/-- Rotation offsets of the ρ step, indexed by `x + 5 * y` (lane 0 rotates
by 0 and is absent from the walk). -/
def rhoOff : List Nat :=
  (List.range 25).map fun i =>
    match rhoAssoc.find? (fun p => p.1 == i) with
    | some p => p.2
    | none => 0

def u64max : Nat := 18446744073709551615

def rotl64 (x n : Nat) : Nat := ((x <<< n) % 2 ^ 64) ||| (x >>> (64 - n))

def lane (s : List Nat) (x y : Nat) : Nat := s.getD (x % 5 + 5 * (y % 5)) 0

def theta (s : List Nat) : List Nat :=
  let c : Nat → Nat := fun x =>
    lane s x 0 ^^^ lane s x 1 ^^^ lane s x 2 ^^^ lane s x 3 ^^^ lane s x 4
  let d : Nat → Nat := fun x => c ((x + 4) % 5) ^^^ rotl64 (c ((x + 1) % 5)) 1
  (List.range 25).map fun i => s.getD i 0 ^^^ d (i % 5)

/-- The combined ρ and π steps: output lane `(X, Y)` is the rotated input
lane `(x, y)` with `y = X` and `x = (X + 3 * Y) % 5`. -/
def rhopi (s : List Nat) : List Nat :=
  (List.range 25).map fun j =>
    let i := (j % 5 + 3 * (j / 5)) % 5 + 5 * (j % 5)
    rotl64 (s.getD i 0) (rhoOff.getD i 0)

def chi (s : List Nat) : List Nat :=
  (List.range 25).map fun j =>
    let x := j % 5
    let y := j / 5
    s.getD j 0 ^^^ ((s.getD ((x + 1) % 5 + 5 * y) 0 ^^^ u64max) &&& s.getD ((x + 2) % 5 + 5 * y) 0)

def iota (rc : Nat) (s : List Nat) : List Nat := (s.headD 0 ^^^ rc) :: s.tail

def keccakRound (s : List Nat) (rc : Nat) : List Nat := iota rc (chi (rhopi (theta s)))

def keccakF (s : List Nat) : List Nat := keccakRC.foldl keccakRound s

/-- Interpret up to 8 bytes as a little-endian 64-bit lane. -/
def loadLane (bytes : List Nat) : Nat := bytes.foldr (fun b acc => acc * 256 + b) 0

def leBytes8 (w : Nat) : List Nat := (List.range 8).map fun i => w >>> (8 * i) % 256

def toBlocksAux : Nat → List Nat → List (List Nat)
  | 0, _ => []
  | fuel + 1, l =>
    if l.isEmpty then [] else l.take 136 :: toBlocksAux fuel (l.drop 136)

/-- Original Keccak multi-rate padding (`0x01`, zeros, `0x80`), rate 136. -/
def keccakPad (msg : List Nat) : List Nat :=
  let padLen := 136 - msg.length % 136
  if padLen = 1 then msg ++ [0x81]
  else msg ++ 0x01 :: List.replicate (padLen - 2) 0 ++ [0x80]

def blockLanes (block : List Nat) : List Nat :=
  (List.range 25).map fun i => loadLane ((block.drop (8 * i)).take 8)

def absorbBlock (st block : List Nat) : List Nat :=
  keccakF ((List.range 25).map fun i => st.getD i 0 ^^^ (blockLanes block).getD i 0)

/-- Keccak-256 digest (32 bytes) of a byte list. -/
def keccak256 (msg : List Nat) : List Nat :=
  let padded := keccakPad msg
  let final := (toBlocksAux padded.length padded).foldl absorbBlock (List.replicate 25 0)
  ((final.take 4).foldr (fun w acc => leBytes8 w ++ acc) []).take 32

/-! ## secp256k1 field data and SEC1 encoding (the `k256` collaborator's key format)

`PublicKey::from_sec1_bytes` accepts a compressed (33-byte, tag `02`/`03`)
or uncompressed (65-byte, tag `04`) SEC1 encoding, validating that the
coordinates are field elements and the point lies on the curve
`y² = x³ + 7`; `to_encoded_point(false)` re-serializes the point
uncompressed as `04 ‖ x ‖ y` in 32-byte big-endian limbs. -/

def secpP : Nat :=
  115792089237316195423570985008687907853269984665640564039457584007908834671663

def secpN : Nat :=
  115792089237316195423570985008687907852837564279074904382605163141518161494337

structure AffinePoint where
  x : Nat
  y : Nat
deriving DecidableEq

def onCurve (P : AffinePoint) : Bool :=
  decide (P.x < secpP) && decide (P.y < secpP)
    && (P.y * P.y) % secpP == (P.x * P.x * P.x + 7) % secpP

def powModAux : Nat → Nat → Nat → Nat → Nat
  | 0, _, _, m => 1 % m
  | fuel + 1, b, e, m =>
    if e = 0 then 1 % m
    else
      let h := powModAux fuel (b * b % m) (e / 2) m
      if e % 2 = 1 then h * b % m else h

def powMod (b e m : Nat) : Nat := powModAux (e + 1) b e m

/-- Modular square root candidate for `secpP ≡ 3 mod 4`: `a ^ ((p + 1) / 4)`. -/
def sqrtModP (a : Nat) : Nat := powMod a ((secpP + 1) / 4) secpP

/-- Big-endian byte list to `Nat`. -/
def beNat (l : List Nat) : Nat := l.foldl (fun a b => a * 256 + b) 0

def beBytes32 (n : Nat) : List Nat := (List.range 32).map fun i => n >>> (8 * (31 - i)) % 256

/-- The `k256` parser `VerifyingKey::from_sec1_bytes` / `PublicKey::from_sec1_bytes`:
`none` models its `Err` outcome (invalid length, tag, coordinate or point). -/
def fromSec1Bytes (pk : List Nat) : Option AffinePoint :=
  if pk.length = 65 && pk.headD 0 == 4 then
    let P : AffinePoint := ⟨beNat ((pk.drop 1).take 32), beNat (pk.drop 33)⟩
    if onCurve P then some P else none
  else if pk.length = 33 && (pk.headD 0 == 2 || pk.headD 0 == 3) then
    let x := beNat (pk.drop 1)
    if x < secpP then
      let alpha := (x * x * x + 7) % secpP
      let y0 := sqrtModP alpha
      if y0 * y0 % secpP == alpha then
        some ⟨x, if y0 % 2 == pk.headD 0 % 2 then y0 else (secpP - y0) % secpP⟩
      else none
    else none
  else none

/-- The uncompressed SEC1 encoding `to_encoded_point(false).as_bytes()`. -/
def uncompressedSec1 (P : AffinePoint) : List Nat := 4 :: (beBytes32 P.x ++ beBytes32 P.y)

/-! ## signer-icp (`utils.rs`, `signer.rs`)

Remote management-canister calls (`ecdsa_public_key`, `sign_with_ecdsa`)
are modelled by passing their `CallResult` outcome in as an argument; the
`k256` trial-recovery primitive `VerifyingKey::recover_from_prehash` is
passed in as a function `RecoverFn` (with `none` for its `Err` outcome).
Rust panics (from `unwrap` and `panic!`) are modelled with `PanicOr`. -/

/-- Outcome of a Rust computation that may panic instead of returning. -/
inductive PanicOr (α : Type)
  | panic (msg : String)
  | ok (a : α)
deriving DecidableEq

def PanicOr.isPanic {α : Type} : PanicOr α → Bool
  | .panic _ => true
  | .ok _ => false

inductive EcdsaCurve
  | secp256k1
deriving DecidableEq

structure EcdsaKeyId where
  curve : EcdsaCurve
  name : String
deriving DecidableEq

/-- `ecdsa_key_id` from `utils.rs`: a `Secp256k1` key id with the given name. -/
def ecdsa_key_id (name : String) : EcdsaKeyId := ⟨.secp256k1, name⟩

/-- ic_cdk's `RejectionCode` (the error code of a rejected inter-canister
call), with its `#[repr]` discriminants `0..6`. -/
inductive RejectionCode
  | noError
  | sysFatal
  | sysTransient
  | destinationInvalid
  | canisterReject
  | canisterError
  | unknown
deriving DecidableEq

def RejectionCode.asI64 : RejectionCode → Int
  | .noError => 0
  | .sysFatal => 1
  | .sysTransient => 2
  | .destinationInvalid => 3
  | .canisterReject => 4
  | .canisterError => 5
  | .unknown => 6

/-- `CallResult` of `ic_cdk::api::call`: a rejected call carries `(code, message)`. -/
def CallResult (α : Type) : Type := Except (RejectionCode × String) α

/-- `IcpSignerError` from `signer.rs`: exactly two variants exist,
`IcpCall(RejectionCode, String)` and `EllipticCurve(elliptic_curve::Error)`
(the latter's payload is an opaque unit-like error). -/
inductive IcpSignerError
  | icpCall (code : RejectionCode) (msg : String)
  | ellipticCurve
deriving DecidableEq

/-- `get_public_key` from `utils.rs`: maps a rejected `ecdsa_public_key`
call to `IcpSignerError::IcpCall` and projects `public_key` on success.
The remote call's outcome is the `remote` argument. -/
def get_public_key (_derivation_path : List (List Nat)) (_key_id : EcdsaKeyId)
    (remote : CallResult (List Nat)) : Except IcpSignerError (List Nat) :=
  match remote with
  | .error (code, msg) => .error (.icpCall code msg)
  | .ok public_key => .ok public_key

/-- `address_for_public_key` from `utils.rs`: parse the SEC1 key, take the
uncompressed encoding, hash all bytes after the `04` tag with keccak256 and
keep bytes `12..32`. -/
def address_for_public_key (public_key : List Nat) : Except IcpSignerError (List Nat) :=
  match fromSec1Bytes public_key with
  | none => .error .ellipticCurve
  | some key => .ok ((keccak256 ((uncompressedSec1 key).drop 1)).drop 12)

structure IcpSigner where
  derivation_path : List (List Nat)
  key_id : EcdsaKeyId
  public_key : List Nat
  address : List Nat
  chain_id : Option Nat
deriving DecidableEq

/-- `IcpSigner::new`: one remote public-key derivation (outcome `remote`),
then local address derivation; all fields are fixed at construction. -/
def IcpSigner.new (derivation_path : List (List Nat)) (ecdsa_key_name : String)
    (chain_id : Option Nat) (remote : CallResult (List Nat)) :
    Except IcpSignerError IcpSigner :=
  let key_id := ecdsa_key_id ecdsa_key_name
  match get_public_key derivation_path key_id remote with
  | .error e => .error e
  | .ok public_key =>
    match address_for_public_key public_key with
    | .error e => .error e
    | .ok address => .ok ⟨derivation_path, key_id, public_key, address, chain_id⟩

/-- The `k256` primitive `VerifyingKey::recover_from_prehash`:
`(prehash, 64-byte signature, recovery id) ↦ recovered key`, `none` for `Err`. -/
def RecoverFn : Type := List Nat → List Nat → Nat → Option AffinePoint

/-- Validity checked by `Signature::try_from(&[u8])`: exactly 64 bytes and
both 32-byte big-endian halves are nonzero scalars below the group order. -/
def sigScalarsValid (signature : List Nat) : Bool :=
  signature.length == 64
    && decide (0 < beNat (signature.take 32)) && decide (beNat (signature.take 32) < secpN)
    && decide (0 < beNat (signature.drop 32)) && decide (beNat (signature.drop 32) < secpN)

/-- `y_parity` from `utils.rs`: unwrap the parsed key and signature, try
recovery ids `0` then `1` against the known public key, return the first
match, and `panic!("Unable to recover the parity bit")` if neither matches.
Every failure path is a panic: the function's return type (`u64`) has no
error channel. -/
def y_parity (recover : RecoverFn) (hash signature public_key : List Nat) : PanicOr Nat :=
  match fromSec1Bytes public_key with
  | none => .panic "VerifyingKey::from_sec1_bytes: unwrap on Err"
  | some verifying_key =>
    if !sigScalarsValid signature then .panic "Signature::try_from: unwrap on Err"
    else
      match recover hash signature 0 with
      | none => .panic "recover_from_prehash: unwrap on Err"
      | some k0 =>
        if k0 = verifying_key then .ok 0
        else
          match recover hash signature 1 with
          | none => .panic "recover_from_prehash: unwrap on Err"
          | some k1 =>
            if k1 = verifying_key then .ok 1
            else .panic "Unable to recover the parity bit"

structure EthSignature where
  r : Nat
  s : Nat
  yParity : Nat
deriving DecidableEq

/-- alloy's `Signature::from_bytes_and_parity`: split the 64 bytes into
`(r, s)` scalars and attach the parity; `none` models its `Err` outcome. -/
def signature_from_bytes_and_parity (bytes : List Nat) (parity : Nat) : Option EthSignature :=
  if sigScalarsValid bytes then
    some ⟨beNat (bytes.take 32), beNat (bytes.drop 32), parity⟩
  else none

/-- `IcpSigner::sign_hash_inner`: `sign_with_ecdsa(...).await.unwrap()`
(a rejected call therefore panics instead of propagating an error value),
then `y_parity`, then `Signature::from_bytes_and_parity(...).unwrap()`.
The function's success type is a `Result`, but no path constructs its
error case: every failure is a panic. -/
def sign_hash_inner (signer : IcpSigner) (recover : RecoverFn) (hash : List Nat)
    (callResult : CallResult (List Nat)) : PanicOr (Except IcpSignerError EthSignature) :=
  match callResult with
  | .error _ => .panic "called Result::unwrap on an Err value"
  | .ok signature_response =>
    match y_parity recover hash signature_response signer.public_key with
    | .panic msg => .panic msg
    | .ok parity =>
      match signature_from_bytes_and_parity signature_response parity with
      | none => .panic "called Result::unwrap on an Err value"
      | some sg => .ok (.ok sg)

/-! ## transport-icp (`evm_rpc.rs`)

The candid types of the EVM RPC canister interface, with the `Debug`
strings their `#[derive(Debug)]` instances produce (used by `lib.rs`
through `format!("{:?}", rpc_error)`). -/

inductive EthSepoliaService
  | alchemy
  | blockPi
  | publicNode
  | ankr
deriving DecidableEq

inductive L2MainnetService
  | alchemy
  | blockPi
  | publicNode
  | ankr
deriving DecidableEq

structure HttpHeader where
  value : String
  name : String
deriving DecidableEq

structure RpcApi where
  url : String
  headers : Option (List HttpHeader)
deriving DecidableEq

inductive EthMainnetService
  | alchemy
  | blockPi
  | cloudflare
  | publicNode
  | ankr
deriving DecidableEq

structure JsonRpcError where
  code : Int
  message : String
deriving DecidableEq

/-- `ProviderError` of `evm_rpc.rs`; the `candid::Nat` payloads are `Nat`. -/
inductive ProviderError
  | tooFewCycles (expected received : Nat)
  | missingRequiredProvider
  | providerNotFound
  | noPermission
deriving DecidableEq

inductive ValidationError
  | credentialPathNotAllowed
  | hostNotAllowed (host : String)
  | credentialHeaderNotAllowed
  | urlParseError (e : String)
  | custom (e : String)
  | invalidHex (e : String)
deriving DecidableEq

/-- The `RejectionCode` enum declared inside `evm_rpc.rs` (its variant
order differs from ic_cdk's). -/
inductive EvmRejectionCode
  | noError
  | canisterError
  | sysTransient
  | destinationInvalid
  | unknown
  | sysFatal
  | canisterReject
deriving DecidableEq

inductive HttpOutcallError
  | icError (code : EvmRejectionCode) (message : String)
  | invalidHttpJsonRpcResponse (status : Nat) (body : String) (parsingError : Option String)
deriving DecidableEq

inductive RpcError
  | jsonRpcError (e : JsonRpcError)
  | providerError (e : ProviderError)
  | validationError (e : ValidationError)
  | httpOutcallError (e : HttpOutcallError)
deriving DecidableEq

inductive RpcService
  | ethSepolia (s : EthSepoliaService)
  | baseMainnet (s : L2MainnetService)
  | custom (api : RpcApi)
  | optimismMainnet (s : L2MainnetService)
  | arbitrumOne (s : L2MainnetService)
  | ethMainnet (s : EthMainnetService)
  | chain (id : Nat)
  | provider (id : Nat)
deriving DecidableEq

inductive RequestResult
  | ok (s : String)
  | err (e : RpcError)
deriving DecidableEq

/-- Rust `Debug` escaping of one character inside a `String` payload
(quote, backslash and the common control characters). -/
def escDebugChar (c : Char) : String :=
  if c = '"' then "\\\""
  else if c = '\\' then "\\\\"
  else if c = '\n' then "\\n"
  else if c = '\t' then "\\t"
  else if c = '\r' then "\\r"
  else String.singleton c

def strDebug (s : String) : String :=
  "\"" ++ String.join (s.toList.map escDebugChar) ++ "\""

def chunk3 : Nat → List Char → List (List Char)
  | 0, _ => []
  | fuel + 1, l =>
    if l.isEmpty then [] else l.take 3 :: chunk3 fuel (l.drop 3)

/-- `candid::Nat`'s `Debug`/`Display` output: decimal digits grouped from
the right in threes by underscores. -/
def candidNatDebug (n : Nat) : String :=
  let r := (Nat.repr n).toList.reverse
  String.intercalate "_" (((chunk3 r.length r).map fun c => String.mk c.reverse).reverse)

def optionStrDebug : Option String → String
  | none => "None"
  | some s => "Some(" ++ strDebug s ++ ")"

def JsonRpcError.debugStr (e : JsonRpcError) : String :=
  "JsonRpcError \x7b code: " ++ toString e.code ++ ", message: " ++ strDebug e.message ++ " \x7d"

def ProviderError.debugStr : ProviderError → String
  | .tooFewCycles expected received =>
    "TooFewCycles \x7b expected: " ++ candidNatDebug expected
      ++ ", received: " ++ candidNatDebug received ++ " \x7d"
  | .missingRequiredProvider => "MissingRequiredProvider"
  | .providerNotFound => "ProviderNotFound"
  | .noPermission => "NoPermission"

def ValidationError.debugStr : ValidationError → String
  | .credentialPathNotAllowed => "CredentialPathNotAllowed"
  | .hostNotAllowed host => "HostNotAllowed(" ++ strDebug host ++ ")"
  | .credentialHeaderNotAllowed => "CredentialHeaderNotAllowed"
  | .urlParseError e => "UrlParseError(" ++ strDebug e ++ ")"
  | .custom e => "Custom(" ++ strDebug e ++ ")"
  | .invalidHex e => "InvalidHex(" ++ strDebug e ++ ")"

def EvmRejectionCode.debugStr : EvmRejectionCode → String
  | .noError => "NoError"
  | .canisterError => "CanisterError"
  | .sysTransient => "SysTransient"
  | .destinationInvalid => "DestinationInvalid"
  | .unknown => "Unknown"
  | .sysFatal => "SysFatal"
  | .canisterReject => "CanisterReject"

def HttpOutcallError.debugStr : HttpOutcallError → String
  | .icError code message =>
    "IcError \x7b code: " ++ code.debugStr ++ ", message: " ++ strDebug message ++ " \x7d"
  | .invalidHttpJsonRpcResponse status body parsingError =>
    "InvalidHttpJsonRpcResponse \x7b status: " ++ Nat.repr status
      ++ ", body: " ++ strDebug body
      ++ ", parsingError: " ++ optionStrDebug parsingError ++ " \x7d"

/-- The string `format!("{:?}", rpc_error)` produces in `request_icp`. -/
def RpcError.debugStr : RpcError → String
  | .jsonRpcError e => "JsonRpcError(" ++ e.debugStr ++ ")"
  | .providerError e => "ProviderError(" ++ e.debugStr ++ ")"
  | .validationError e => "ValidationError(" ++ e.debugStr ++ ")"
  | .httpOutcallError e => "HttpOutcallError(" ++ e.debugStr ++ ")"

/-- Raw bytes of the EVM RPC canister principal `7hfb6-caaaa-aaaar-qadga-cai`. -/
def CANISTER_ID : List Nat := [0, 0, 0, 0, 2, 48, 0, 204, 1, 1]

/-- One inter-canister call as it leaves `ic_cdk::call(callee, method, args)`:
the callee, the method name, the three positional arguments of the
`request` method, and the cycles payment attached to the call (plain
`ic_cdk::call` attaches none). -/
structure CallSpec where
  callee : List Nat
  method : String
  argService : RpcService
  argPayload : String
  argMaxResponse : Nat
  cyclesAttached : Option Nat
deriving DecidableEq

/-- The generated binding `EvmRpc::request` of `evm_rpc.rs`: it declares
three parameters `(arg0 : RpcService, arg1 : String, arg2 : u64)` and
performs `ic_cdk::call(self.0, "request", (arg0, arg1, arg2))` — one call,
three forwarded arguments, no cycles attached.  (The call site in `lib.rs`
passes a fourth `call_cycles` argument that this binding does not declare
and cannot forward.) -/
def EvmRpc.request (self : List Nat) (arg0 : RpcService) (arg1 : String) (arg2 : Nat) :
    CallSpec :=
  ⟨self, "request", arg0, arg1, arg2, none⟩

/-! ## transport-icp (`lib.rs`) -/

def DEFAULT_CALL_CYCLES : Nat := 60000000000

def DEFAULT_CALL_MAX_RESPONSE_SIZE : Nat := 10000

structure IcpConfig where
  rpc_service : RpcService
  call_cycles : Nat
  max_response_size : Nat
deriving DecidableEq

def IcpConfig.new (rpc_service : RpcService) : IcpConfig :=
  ⟨rpc_service, DEFAULT_CALL_CYCLES, DEFAULT_CALL_MAX_RESPONSE_SIZE⟩

structure IcpTransport where
  rpc_service : RpcService
  call_cycles : Nat
  max_response_size : Nat
deriving DecidableEq

def IcpTransport.with_config (config : IcpConfig) : IcpTransport :=
  ⟨config.rpc_service, config.call_cycles, config.max_response_size⟩

/-- alloy's `ErrorPayload`: `data` is an optional raw JSON value; the code
under test always leaves it `None`. -/
structure ErrorPayload where
  code : Int
  message : String
  data : Option String
deriving DecidableEq

/-- The `TransportError` constructors this repository produces:
`TransportError::ser_err` (serialization), `TransportError::deser_err`
(deserialization, with the offending text) and
`TransportError::ErrorResp(ErrorPayload)`. -/
inductive TransportError
  | serError (msg : String)
  | deserError (err : String) (text : String)
  | errorResp (payload : ErrorPayload)
deriving DecidableEq

/-- The `match call_result` arm of `request_icp` (`lib.rs` lines 138–155):
a successful call with `RequestResult::Ok` is deserialized (failure ↦
`deser_err`); `RequestResult::Err(rpc_error)` ↦
`ErrorResp { code: 6, message: format!("{:?}", rpc_error), data: None }`;
a rejected call `(code, msg)` ↦
`ErrorResp { code: code as i64, message: msg, data: None }`. -/
def mapCallResult {Resp : Type} (deser : String → Except String Resp) :
    CallResult RequestResult → Except TransportError Resp
  | .ok (.ok ok_result) =>
    match deser ok_result with
    | .ok resp => .ok resp
    | .error e => .error (.deserError e ok_result)
  | .ok (.err rpc_error) => .error (.errorResp ⟨6, rpc_error.debugStr, none⟩)
  | .error (code, msg) => .error (.errorResp ⟨code.asI64, msg, none⟩)

/-- `IcpTransport::request_icp`: serialize the request packet (failure ↦
`ser_err`), perform the single `evm_rpc.request(...)` call, and map the
outcome.  The first component is the list of inter-canister calls
performed; `world` gives the outcome of a call.  `serde` serialization and
deserialization are the `ser`/`deser` collaborators. -/
def request_icp {Req Resp : Type} (t : IcpTransport)
    (ser : Req → Except String String)
    (world : CallSpec → CallResult RequestResult)
    (deser : String → Except String Resp)
    (request_packet : Req) : List CallSpec × Except TransportError Resp :=
  match ser request_packet with
  | .error e => ([], .error (.serError e))
  | .ok serialized_request =>
    let call := EvmRpc.request CANISTER_ID t.rpc_service serialized_request t.max_response_size
    ([call], mapCallResult deser (world call))

/-! ## rpc-client (`icp_poller.rs`)

The builder is a record; the dynamic behaviour of a started poller (the
`poll` closure, its spawned async body and the shared
`poll_count`/`timer_id` cells) is an event-step relation on `PollSt`:
`fire` is one invocation of the `poll` closure (immediate poll or timer
tick) — it constructs a fresh `ParamsOnce::Typed(self.params.clone())`,
invokes the serializer once and, on success, leaves one request in
flight; `okDone`/`errDone` are completions of an in-flight request. -/

def usizeMax : Nat := 18446744073709551615

structure IcpPollerBuilder (Params : Type) where
  clientAlive : Bool
  method : String
  params : Params
  poll_interval : Nat
  limit : Nat
  timer_id : Option Nat
deriving DecidableEq

/-- `IcpPollerBuilder::new`: default limit `usize::MAX`, no timer,
interval from the client if it is still alive, else 7 seconds. -/
def IcpPollerBuilder.new {Params : Type} (clientAlive : Bool) (clientPollInterval : Nat)
    (method : String) (params : Params) : IcpPollerBuilder Params :=
  ⟨clientAlive, method, params, if clientAlive then clientPollInterval else 7, usizeMax, none⟩

def IcpPollerBuilder.set_limit {Params : Type} (b : IcpPollerBuilder Params)
    (limit : Option Nat) : IcpPollerBuilder Params :=
  { b with limit := limit.getD usizeMax }

def IcpPollerBuilder.with_limit {Params : Type} (b : IcpPollerBuilder Params)
    (limit : Option Nat) : IcpPollerBuilder Params :=
  b.set_limit limit

/-- `ParamsOnce` from `icp_poller.rs`: either the typed params or the
cached serialized form. -/
inductive ParamsOnce (P : Type)
  | typed (p : P)
  | serialized (v : String)
deriving DecidableEq

/-- `ParamsOnce::get` (with `init` inlined at its only call site): on
`Typed`, serialize and replace `self` with `Serialized`; on `Serialized`,
return the cached value without invoking the serializer. -/
def ParamsOnce.get {P : Type} (ser : P → Except String String) :
    ParamsOnce P → Except String (String × ParamsOnce P)
  | .typed p =>
    match ser p with
    | .ok v => .ok (v, .serialized v)
    | .error e => .error e
  | .serialized v => .ok (v, .serialized v)

/-- Dynamic state of a started poller: the shared `poll_count` cell, whether
the periodic timer is still scheduled in the host, the number of spawned
tick bodies awaiting their RPC response, and observation counters (handler
invocations, serializer invocations, "Request failed" log lines). -/
structure PollSt where
  pollCount : Nat
  timerScheduled : Bool
  pending : Nat
  callbacks : Nat
  serCalls : Nat
  failLogs : Nat
deriving DecidableEq

inductive TickEv
  | fire
  | okDone
  | errDone
deriving DecidableEq

/-- One scheduler event, from the body of `start`'s `poll` closure:

* `fire` — the closure runs (only possible while the timer is scheduled):
  it builds a fresh `ParamsOnce::Typed(self.params.clone())` and calls
  `params.get()`, invoking the serializer once; on serializer success the
  spawned body issues the request (one more in-flight tick), on failure it
  logs and returns without a request;
* `okDone` — an in-flight request completes `Ok`: `poll_count` is
  incremented (fetch_add + 1), the handler is invoked, and if the new count
  reaches `self.limit` the timer is cleared (`clear_timer` on an already
  cleared timer is a no-op);
* `errDone` — an in-flight request completes `Err`: the failure is logged,
  nothing else changes. -/
def stepTick (limit : Nat) (serOk : Bool) (s : PollSt) : TickEv → Option PollSt
  | .fire =>
    if s.timerScheduled then
      some { s with
        serCalls := s.serCalls + 1
        pending := if serOk then s.pending + 1 else s.pending }
    else none
  | .okDone =>
    if s.pending = 0 then none
    else
      some { pollCount := s.pollCount + 1
             timerScheduled := if limit ≤ s.pollCount + 1 then false else s.timerScheduled
             pending := s.pending - 1
             callbacks := s.callbacks + 1
             serCalls := s.serCalls
             failLogs := s.failLogs }
  | .errDone =>
    if s.pending = 0 then none
    else some { s with pending := s.pending - 1, failLogs := s.failLogs + 1 }

/-- State right after `start` returned `Ok`: `start` ran `poll()` once (the
initial poll: one serializer invocation and, on success, one in-flight
request) and then registered the periodic timer. -/
def startSt (serOk : Bool) : PollSt :=
  { pollCount := 0, timerScheduled := true, pending := if serOk then 1 else 0,
    callbacks := 0, serCalls := 1, failLogs := 0 }

/-- `IcpPollerBuilder::start`: fails with "Client has been dropped." when
the weak client cannot be upgraded; otherwise runs the initial poll,
registers the timer (id modelled as `0`) and stores it in `timer_id`. -/
def IcpPollerBuilder.start {Params : Type} (b : IcpPollerBuilder Params) (serOk : Bool) :
    Except String (IcpPollerBuilder Params × PollSt) :=
  if b.clientAlive then .ok ({ b with timer_id := some 0 }, startSt serOk)
  else .error "Client has been dropped."

def runFrom (limit : Nat) (serOk : Bool) (s : PollSt) (evs : List TickEv) : Option PollSt :=
  evs.foldlM (stepTick limit serOk) s

/-- Evolution of a started poller over a list of scheduler events. -/
def runTicks (limit : Nat) (serOk : Bool) (evs : List TickEv) : Option PollSt :=
  runFrom limit serOk (startSt serOk) evs

def countOk : List TickEv → Nat
  | [] => 0
  | .okDone :: evs => countOk evs + 1
  | _ :: evs => countOk evs

def countFire : List TickEv → Nat
  | [] => 0
  | .fire :: evs => countFire evs + 1
  | _ :: evs => countFire evs

/-- A sequential (non-overlapping) schedule of `n` successful ticks: the
initial in-flight poll completes, then each timer tick fires and completes
before the next fires. -/
def seqOkTrace : Nat → List TickEv
  | 0 => []
  | 1 => [.okDone]
  | n + 2 => .okDone :: .fire :: seqOkTrace (n + 1)

/-- Intermediate state of a sequential successful run: `j` ticks completed,
one fired tick in flight, `sc` serializer invocations so far. -/
def midSt (j sc : Nat) : PollSt := ⟨j, true, 1, j, sc, 0⟩

/-- `ic_cdk_timers::clear_timer` on the host's set of active timers:
cancelling an absent (already cancelled) timer is a safe no-op. -/
def clear_timer (id : Nat) (active : List Nat) : List Nat := active.erase id

/-- `IcpPollerBuilder::stop`: `self.timer_id.take()`, and `clear_timer` on
the taken id if there was one.  The result's last component is the list of
`clear_timer` invocations performed. -/
def IcpPollerBuilder.stop {Params : Type} (b : IcpPollerBuilder Params) (active : List Nat) :
    (IcpPollerBuilder Params × List Nat) × List Nat :=
  match b.timer_id with
  | some id => (({ b with timer_id := none }, clear_timer id active), [id])
  | none => ((b, active), [])

/-- `IcpPollerBuilder::into_stream`: the body is
`panic!("Streams cannot be used ICP canisters."); stream::empty()` —
it unconditionally panics; the `stream::empty()` expression after the
panic is dead code and is never produced. -/
def IcpPollerBuilder.into_stream {Params : Type} (Resp : Type)
    (_self : IcpPollerBuilder Params) : PanicOr (List Resp) :=
  .panic "Streams cannot be used ICP canisters."

/-! ## Concrete data for witnesses and counterexamples -/

/-- Big-endian bytes of the x coordinate of the secp256k1 base point. -/
def gxBytes : List Nat :=
  [121, 190, 102, 126, 249, 220, 187, 172, 85, 160, 98, 149, 206, 135, 11, 7,
   2, 155, 252, 219, 45, 206, 40, 217, 89, 242, 129, 91, 22, 248, 23, 152]

/-- Big-endian bytes of the y coordinate of the secp256k1 base point. -/
def gyBytes : List Nat :=
  [72, 58, 218, 119, 38, 163, 196, 101, 93, 164, 251, 252, 14, 17, 8, 168,
   253, 23, 180, 72, 166, 133, 84, 25, 156, 71, 208, 143, 251, 16, 212, 184]

/-- The uncompressed SEC1 encoding of the secp256k1 base point `G`. -/
def gBytes : List Nat := 4 :: (gxBytes ++ gyBytes)

def gPoint : AffinePoint :=
  ⟨55066263022277343669578718895168534326250603453777594175500187360389116729240,
   32670510020758816978083085130507043184471273380659243275938904335757337482424⟩

/-- The Ethereum address of `G` (the address of private key 1),
`0x7E5F4552091A69125d5DfCb7b8C2659029395Bdf`. -/
def gAddress : List Nat :=
  [126, 95, 69, 82, 9, 26, 105, 18, 93, 93, 252, 183, 184, 194, 101, 144, 41, 57, 91, 223]

/-- The point `2·G`, a valid curve point different from `G`. -/
def twoG : AffinePoint :=
  ⟨89565891926547004231252920425935692360644145829622209833684329913297188986597,
   12158399299693830322967808612713398636155367887041628176798871954788371653930⟩

def hashC : List Nat := List.replicate 32 0

/-- A well-formed 64-byte signature with scalars `r = s = 1`. -/
def sigC : List Nat := (List.replicate 31 0 ++ [1]) ++ (List.replicate 31 0 ++ [1])

/-- A recovery collaborator that recovers `2·G` for both candidate ids:
a valid key that simply is not the signer's. -/
def constRecover2G : RecoverFn := fun _ _ _ => some twoG

/-- A recovery collaborator for which the correct recovery id is `1`. -/
def recoverGoodAt1 : RecoverFn := fun _ _ bit => if bit = 1 then some gPoint else some twoG

/-- A signer whose cached key is `G` (with its derived address). -/
def signerG : IcpSigner := ⟨[], ecdsa_key_id "test_key", gBytes, gAddress, none⟩

def deserId : String → Except String String := fun s => .ok s

def deserFail : String → Except String String := fun _ => .error "invalid json"

/-! ## Helper lemmas -/

theorem chi_length (s : List Nat) : (chi s).length = 25 := by
  simp [chi]

theorem keccakRound_length (s : List Nat) (rc : Nat) : (keccakRound s rc).length = 25 := by
  simp [keccakRound, iota, List.length_tail, chi_length]

theorem foldl_keccakRound_length (rcs : List Nat) :
    ∀ s : List Nat, s.length = 25 → (rcs.foldl keccakRound s).length = 25 := by
  induction rcs with
  | nil => intro s h; simpa using h
  | cons rc rcs ih =>
    intro s h
    simp only [List.foldl_cons]
    exact ih _ (keccakRound_length _ _)

theorem keccakF_length (s : List Nat) (h : s.length = 25) : (keccakF s).length = 25 :=
  foldl_keccakRound_length keccakRC s h

theorem absorb_foldl_length (blocks : List (List Nat)) :
    ∀ st : List Nat, st.length = 25 → (blocks.foldl absorbBlock st).length = 25 := by
  induction blocks with
  | nil => intro st h; simpa using h
  | cons b bs ih =>
    intro st h
    simp only [List.foldl_cons]
    refine ih _ ?_
    show (absorbBlock st b).length = 25
    unfold absorbBlock
    exact keccakF_length _ (by simp)

theorem leBytes8_length (w : Nat) : (leBytes8 w).length = 8 := by
  simp [leBytes8]

theorem foldr_leBytes_length (l : List Nat) :
    (l.foldr (fun w acc => leBytes8 w ++ acc) []).length = 8 * l.length := by
  induction l with
  | nil => simp
  | cons w ws ih =>
    simp only [List.foldr_cons, List.length_append, List.length_cons, leBytes8_length, ih]
    omega

theorem keccak256_length (msg : List Nat) : (keccak256 msg).length = 32 := by
  simp only [keccak256, List.length_take, foldr_leBytes_length,
    absorb_foldl_length (toBlocksAux (keccakPad msg).length (keccakPad msg))
      (List.replicate 25 0) (by simp)]
  omega

/-! ## C7: address derivation -/

/-- C7: `address_for_public_key` is a pure function of the SEC1-encoded
key (determinism is by construction in this embedding): on every key the
parser accepts it returns exactly
`keccak256(uncompressed_point[1..])[12..32]`, a 20-byte value, and a
signer built by `IcpSigner::new` stores exactly that address for its
cached public key. -/
theorem address_for_public_key_spec (public_key : List Nat) (P : AffinePoint)
    (h : fromSec1Bytes public_key = some P) :
    address_for_public_key public_key
        = .ok ((keccak256 ((uncompressedSec1 P).drop 1)).drop 12)
    ∧ (∀ addr, address_for_public_key public_key = .ok addr → addr.length = 20)
    ∧ (∀ dp name chain s, IcpSigner.new dp name chain (.ok public_key) = .ok s →
        s.public_key = public_key
          ∧ s.address = (keccak256 ((uncompressedSec1 P).drop 1)).drop 12) := by
  have hmain : address_for_public_key public_key
      = .ok ((keccak256 ((uncompressedSec1 P).drop 1)).drop 12) := by
    simp [address_for_public_key, h]
  refine ⟨hmain, ?_, ?_⟩
  · intro addr haddr
    rw [hmain] at haddr
    injection haddr with haddr
    subst haddr
    simp [keccak256_length]
  · intro dp name chain s hs
    unfold IcpSigner.new at hs
    simp only [get_public_key, hmain] at hs
    injection hs with hs
    subst hs
    exact ⟨rfl, rfl⟩

/-- Witness for C7 at the base point `G`: the parse hypothesis holds, and
the derived address evaluates to the well-known address of private key 1. -/
theorem address_for_public_key_spec_witness :
    fromSec1Bytes gBytes = some gPoint
    ∧ address_for_public_key gBytes = .ok gAddress
    ∧ gAddress.length = 20 := by
  have h : fromSec1Bytes gBytes = some gPoint := by decide
  have hmain := (address_for_public_key_spec gBytes gPoint h).1
  have hval : (keccak256 ((uncompressedSec1 gPoint).drop 1)).drop 12 = gAddress := by decide
  exact ⟨h, by rw [hmain, hval], by decide⟩

/-! ## C1: recovery-id search in `y_parity` / `sign_hash_inner` -/

/-- C1 (counterexample to the claim as stated): with a recovery
collaborator that recovers a valid key (`2·G`) different from the cached
key (`G`) at both candidate ids, `y_parity` ends in the
`panic!("Unable to recover the parity bit")` abort — it does not produce
any error value (its return type `u64` has no error channel, and
`IcpSignerError` has no `RecoveryFailed` variant at all: its only
constructors are `IcpCall` and `EllipticCurve`). -/
theorem y_parity_no_match_panics_cex :
    y_parity constRecover2G hashC sigC gBytes = .panic "Unable to recover the parity bit"
    ∧ (y_parity constRecover2G hashC sigC gBytes).isPanic = true := by
  constructor
  · decide
  · decide

/-- C1 (amended): `y_parity` does run the recovery collaborator against
both candidate ids `0` and `1` with the cached public key, returns a bit
only when that candidate recovers the cached key, and when both candidates
recover keys different from the cached key it aborts by panicking with
"Unable to recover the parity bit" — never silently defaulting to a bit —
rather than reporting a `SignerError::RecoveryFailed` error value (no such
variant exists); `sign_hash_inner` surfaces that panic unchanged. -/
theorem y_parity_amended (recover : RecoverFn) (hash signature public_key : List Nat)
    (vk : AffinePoint) (hvk : fromSec1Bytes public_key = some vk)
    (hsig : sigScalarsValid signature = true) :
    (∀ b, y_parity recover hash signature public_key = .ok b →
        b ≤ 1 ∧ recover hash signature b = some vk)
    ∧ (∀ k0 k1, recover hash signature 0 = some k0 → recover hash signature 1 = some k1 →
        k0 ≠ vk → k1 ≠ vk →
        y_parity recover hash signature public_key
          = .panic "Unable to recover the parity bit")
    ∧ (∀ (signer : IcpSigner) (msg : String), signer.public_key = public_key →
        y_parity recover hash signature public_key = .panic msg →
        sign_hash_inner signer recover hash (.ok signature) = .panic msg) := by
  refine ⟨fun b hb => ?_, fun k0 k1 h0 h1 hk0 hk1 => ?_, fun signer msg hpk hy => ?_⟩
  · unfold y_parity at hb
    rw [hvk, hsig] at hb
    simp only [Bool.not_true, Bool.false_eq_true, if_false] at hb
    cases h0 : recover hash signature 0 with
    | none => simp [h0] at hb
    | some k0 =>
      simp only [h0] at hb
      by_cases hk0 : k0 = vk
      · rw [if_pos hk0] at hb
        injection hb with hb
        subst hb
        exact ⟨Nat.zero_le 1, by rw [h0, hk0]⟩
      · rw [if_neg hk0] at hb
        cases h1 : recover hash signature 1 with
        | none => simp [h1] at hb
        | some k1 =>
          simp only [h1] at hb
          by_cases hk1 : k1 = vk
          · rw [if_pos hk1] at hb
            injection hb with hb
            subst hb
            exact ⟨le_refl 1, by rw [h1, hk1]⟩
          · rw [if_neg hk1] at hb
            exact absurd hb (by simp)
  · unfold y_parity
    rw [hvk, hsig]
    simp only [Bool.not_true, Bool.false_eq_true, if_false, h0, h1, if_neg hk0, if_neg hk1]
  · unfold sign_hash_inner
    rw [hpk]
    simp only [hy]

/-- Witness for C1 (amended) with a collaborator whose correct id is 1:
both hypotheses hold at the concrete inputs and the conclusion instance
for bit 1 evaluates. -/
theorem y_parity_amended_witness :
    (1 : Nat) ≤ 1 ∧ recoverGoodAt1 hashC sigC 1 = some gPoint :=
  (y_parity_amended recoverGoodAt1 hashC sigC gBytes gPoint (by decide) (by decide)).1 1
    (by decide)

/-! ## C6: outcome handling of the remote signing call -/

/-- C6 (counterexample to the claim as stated): a rejection of the
`sign_with_ecdsa` call with a code and message makes `sign_hash_inner`
panic through `.await.unwrap()` — the operation aborts instead of
returning an error value. -/
theorem sign_rejection_panics_cex :
    sign_hash_inner signerG constRecover2G hashC
        (Except.error (RejectionCode.canisterReject, "canister explicitly rejected the call"))
      = .panic "called Result::unwrap on an Err value"
    ∧ (sign_hash_inner signerG constRecover2G hashC
        (Except.error (RejectionCode.canisterReject,
          "canister explicitly rejected the call"))).isPanic = true :=
  ⟨rfl, rfl⟩

/-- C6 (amended): `sign_hash_inner` never silently swallows the remote
signing call's outcome, but it does not return an error value on
rejection either: a rejected call panics via `unwrap` (aborting the
operation), a successful call whose signature passes `y_parity` returns an
`Ok` signature, and no execution path constructs the error case of the
returned `Result`. -/
theorem sign_hash_inner_amended (signer : IcpSigner) (recover : RecoverFn) (hash : List Nat) :
    (∀ code msg, sign_hash_inner signer recover hash (.error (code, msg))
        = .panic "called Result::unwrap on an Err value")
    ∧ (∀ reply parity, y_parity recover hash reply signer.public_key = .ok parity →
        sigScalarsValid reply = true →
        sign_hash_inner signer recover hash (.ok reply)
          = .ok (.ok ⟨beNat (reply.take 32), beNat (reply.drop 32), parity⟩))
    ∧ (∀ (e : IcpSignerError) (r : CallResult (List Nat)),
        sign_hash_inner signer recover hash r ≠ .ok (.error e)) := by
  refine ⟨fun code msg => rfl, ?_, ?_⟩
  · intro reply parity hy hv
    unfold sign_hash_inner
    simp only [hy]
    simp [signature_from_bytes_and_parity, hv]
  · intro e r h
    match r with
    | .error _ => simp [sign_hash_inner] at h
    | .ok reply =>
      cases hy : y_parity recover hash reply signer.public_key with
      | panic msg => simp [sign_hash_inner, hy] at h
      | ok parity =>
        cases hs : signature_from_bytes_and_parity reply parity with
        | none => simp [sign_hash_inner, hy, hs] at h
        | some sg => simp [sign_hash_inner, hy, hs] at h

/-- Witness for C6 (amended): a concrete rejection panics, and the
success path returns the `(r, s)` pair with the recovered parity 1. -/
theorem sign_hash_inner_amended_witness :
    sign_hash_inner signerG recoverGoodAt1 hashC
        (Except.error (RejectionCode.sysTransient, "transient failure"))
      = .panic "called Result::unwrap on an Err value"
    ∧ sign_hash_inner signerG recoverGoodAt1 hashC (Except.ok sigC)
      = .ok (.ok ⟨1, 1, 1⟩) := by
  have h := (sign_hash_inner_amended signerG recoverGoodAt1 hashC).2.1 sigC 1
    (by decide) (by decide)
  have hr : beNat (sigC.take 32) = 1 := by decide
  have hs : beNat (sigC.drop 32) = 1 := by decide
  exact ⟨(sign_hash_inner_amended signerG recoverGoodAt1 hashC).1 _ _,
    by rw [h, hr, hs]⟩

/-! ## C4: transport error mapping -/

/-- C4 (counterexample to the claim as stated): an application-level relay
error `ProviderError::ProviderNotFound` maps to exactly the same
`TransportError` value as a call-infrastructure rejection with
`RejectionCode::Unknown` (`as i64` = 6) and a matching message — the relay
error is folded into `ErrorResp { code: 6, message: format!("{:?}", …),
data: None }`, i.e. a stringified payload with the structured detail
dropped, not a dedicated Relay kind distinguishable from an Infra error. -/
theorem relay_error_indistinguishable_cex :
    mapCallResult deserId (.ok (.err (.providerError .providerNotFound)))
      = mapCallResult deserId (.error (RejectionCode.unknown, "ProviderError(ProviderNotFound)"))
    ∧ mapCallResult deserId (.ok (.err (.providerError .providerNotFound)))
      = .error (.errorResp ⟨6, "ProviderError(ProviderNotFound)", none⟩) :=
  ⟨rfl, rfl⟩

/-- C4 (amended): a relay call that succeeds at the call layer but returns
an application-level relay error maps to `ErrorResp` with code 6 and the
`Debug`-stringified error as message with `data = None` (stringified-only,
not the original structured value); this is distinguishable from a
`Serialization` error (distinct constructor) and from an `Infra` rejection
whose code differs from 6, but not, in general, from one whose code is 6;
a malformed upstream JSON body in a successful relay response maps to a
`Deserialization` error carrying the offending text. -/
theorem transport_error_mapping_amended {Resp : Type} (deser : String → Except String Resp) :
    (∀ e : RpcError, mapCallResult deser (.ok (.err e))
        = .error (.errorResp ⟨6, e.debugStr, none⟩))
    ∧ (∀ (code : RejectionCode) (msg : String),
        mapCallResult deser (.error (code, msg))
          = .error (.errorResp ⟨code.asI64, msg, none⟩))
    ∧ (∀ s e, deser s = .error e →
        mapCallResult deser (.ok (.ok s)) = .error (.deserError e s))
    ∧ (∀ {Req : Type} (t : IcpTransport) (ser : Req → Except String String)
        (world : CallSpec → CallResult RequestResult) (req : Req) (e : String),
        ser req = .error e → (request_icp t ser world deser req).2 = .error (.serError e))
    ∧ (∀ (e : RpcError) (m1 m2 : String),
        TransportError.errorResp ⟨6, e.debugStr, none⟩ ≠ .serError m1
          ∧ TransportError.errorResp ⟨6, e.debugStr, none⟩ ≠ .deserError m1 m2
          ∧ ∀ payload : ErrorPayload, payload.code ≠ 6 →
              TransportError.errorResp ⟨6, e.debugStr, none⟩ ≠ .errorResp payload) := by
  refine ⟨fun e => rfl, fun code msg => rfl, ?_, ?_, ?_⟩
  · intro s e h
    simp [mapCallResult, h]
  · intro Req t ser world req e h
    simp [request_icp, h]
  · intro e m1 m2
    refine ⟨by simp, by simp, ?_⟩
    intro payload hp hcontra
    injection hcontra with hcontra
    exact hp (by rw [← hcontra])

/-- Witness for C4 (amended): concrete instances of each mapping — the
`ProviderNotFound` relay error, a `CanisterReject` (code 4) infra
rejection, a failing deserializer, and a failing serializer. -/
theorem transport_error_mapping_amended_witness :
    mapCallResult deserId (.ok (.err (.providerError .providerNotFound)))
      = .error (.errorResp ⟨6, "ProviderError(ProviderNotFound)", none⟩)
    ∧ mapCallResult deserId (.error (RejectionCode.canisterReject, "rejected"))
      = .error (.errorResp ⟨4, "rejected", none⟩)
    ∧ mapCallResult deserFail (.ok (.ok "not json"))
      = .error (.deserError "invalid json" "not json")
    ∧ (request_icp (IcpTransport.with_config (IcpConfig.new (.ethMainnet .alchemy)))
        (fun _ : Nat => (.error "cannot serialize" : Except String String))
        (fun _ => .ok (.ok "resp")) deserId 0).2
      = .error (.serError "cannot serialize") :=
  ⟨(transport_error_mapping_amended deserId).1 (.providerError .providerNotFound),
   (transport_error_mapping_amended deserId).2.1 RejectionCode.canisterReject "rejected",
   (transport_error_mapping_amended deserFail).2.2.1 "not json" "invalid json" rfl,
   (transport_error_mapping_amended deserId).2.2.2.1
     (IcpTransport.with_config (IcpConfig.new (.ethMainnet .alchemy)))
     (fun _ : Nat => (.error "cannot serialize" : Except String String))
     (fun _ => .ok (.ok "resp")) 0 "cannot serialize" rfl⟩

/-! ## C5: the single relay call and its arguments -/

/-- C5: for every request whose serialization succeeds, `request_icp`
performs exactly one inter-canister call, to the configured EVM RPC
canister, named `request`, with the endpoint selector, the serialized
payload and the maximum response size as its arguments — and with no
cycles attached: the binding `EvmRpc::request` in `evm_rpc.rs` declares
only three parameters and forwards them with plain `ic_cdk::call`, even
though `request_icp` in `lib.rs` supplies `call_cycles` as a fourth
argument (the two files are inconsistent; the call budget never reaches
the call). -/
theorem request_icp_single_call {Req Resp : Type} (t : IcpTransport)
    (ser : Req → Except String String) (world : CallSpec → CallResult RequestResult)
    (deser : String → Except String Resp) (req : Req) (payload : String)
    (h : ser req = .ok payload) :
    (request_icp t ser world deser req).1
      = [⟨CANISTER_ID, "request", t.rpc_service, payload, t.max_response_size, none⟩] := by
  simp [request_icp, h, EvmRpc.request]

/-- Witness for C5: a concrete request through a transport with the
default configuration produces exactly the one expected call record. -/
theorem request_icp_single_call_witness :
    (request_icp (IcpTransport.with_config (IcpConfig.new (.ethMainnet .alchemy)))
        (fun _ : Nat => (.ok "payload" : Except String String))
        (fun _ => .ok (.ok "resp")) deserId 0).1
      = [⟨CANISTER_ID, "request", .ethMainnet .alchemy, "payload", 10000, none⟩] :=
  request_icp_single_call _ _ _ deserId 0 "payload" rfl

/-! ## Poller run helpers -/

theorem runFrom_nil (limit : Nat) (serOk : Bool) (s : PollSt) :
    runFrom limit serOk s [] = some s := rfl

theorem runFrom_cons (limit : Nat) (serOk : Bool) (s : PollSt) (e : TickEv)
    (evs : List TickEv) :
    runFrom limit serOk s (e :: evs)
      = (stepTick limit serOk s e).bind (fun s1 => runFrom limit serOk s1 evs) := rfl

/-- One successful get on the `Serialized` variant of `ParamsOnce` reuses
the cached value without consulting the serializer at all. -/
theorem ParamsOnce.get_serialized {P : Type} (ser : P → Except String String) (v : String) :
    ParamsOnce.get ser (ParamsOnce.serialized v) = .ok (v, .serialized v) := rfl

/-- After a successful get, every later get on the returned state yields
the same cached value under any serializer: a single `ParamsOnce` value
serializes at most once. -/
theorem ParamsOnce.get_idempotent {P : Type} (ser ser2 : P → Except String String)
    (st st2 : ParamsOnce P) (v : String) (h : ParamsOnce.get ser st = .ok (v, st2)) :
    ParamsOnce.get ser2 st2 = .ok (v, st2) := by
  cases st with
  | typed p =>
    cases hs : ser p with
    | ok w =>
      simp only [ParamsOnce.get, hs] at h
      injection h with h
      injection h with h1 h2
      subst h1
      subst h2
      rfl
    | error e =>
      simp only [ParamsOnce.get, hs] at h
      exact absurd h (by simp)
  | serialized w =>
    simp only [ParamsOnce.get] at h
    injection h with h
    injection h with h1 h2
    subst h1
    subst h2
    rfl

theorem runFrom_serCalls (limit : Nat) (serOk : Bool) :
    ∀ (evs : List TickEv) (s0 s : PollSt), runFrom limit serOk s0 evs = some s →
      s.serCalls = s0.serCalls + countFire evs := by
  intro evs
  induction evs with
  | nil =>
    intro s0 s h
    rw [runFrom_nil] at h
    injection h with h
    subst h
    simp [countFire]
  | cons e evs ih =>
    intro s0 s h
    rw [runFrom_cons] at h
    cases hstep : stepTick limit serOk s0 e with
    | none => rw [hstep] at h; exact absurd h (by simp)
    | some s1 =>
      rw [hstep] at h
      simp only [Option.some_bind] at h
      have hrec := ih s1 s h
      cases e with
      | fire =>
        simp only [stepTick] at hstep
        by_cases ht : s0.timerScheduled
        · rw [if_pos ht] at hstep
          injection hstep with hstep
          subst hstep
          simp [countFire] at hrec ⊢
          omega
        · rw [if_neg ht] at hstep
          exact absurd hstep (by simp)
      | okDone =>
        simp only [stepTick] at hstep
        by_cases hp : s0.pending = 0
        · rw [if_pos hp] at hstep; exact absurd hstep (by simp)
        · rw [if_neg hp] at hstep
          injection hstep with hstep
          subst hstep
          simpa [countFire] using hrec
      | errDone =>
        simp only [stepTick] at hstep
        by_cases hp : s0.pending = 0
        · rw [if_pos hp] at hstep; exact absurd hstep (by simp)
        · rw [if_neg hp] at hstep
          injection hstep with hstep
          subst hstep
          simpa [countFire] using hrec

theorem runFrom_counts (limit : Nat) (serOk : Bool) :
    ∀ (evs : List TickEv) (s0 s : PollSt), runFrom limit serOk s0 evs = some s →
      s.callbacks = s0.callbacks + countOk evs
        ∧ s.pollCount = s0.pollCount + countOk evs := by
  intro evs
  induction evs with
  | nil =>
    intro s0 s h
    rw [runFrom_nil] at h
    injection h with h
    subst h
    simp [countOk]
  | cons e evs ih =>
    intro s0 s h
    rw [runFrom_cons] at h
    cases hstep : stepTick limit serOk s0 e with
    | none => rw [hstep] at h; exact absurd h (by simp)
    | some s1 =>
      rw [hstep] at h
      simp only [Option.some_bind] at h
      have hrec := ih s1 s h
      cases e with
      | fire =>
        simp only [stepTick] at hstep
        by_cases ht : s0.timerScheduled
        · rw [if_pos ht] at hstep
          injection hstep with hstep
          subst hstep
          simpa [countOk] using hrec
        · rw [if_neg ht] at hstep
          exact absurd hstep (by simp)
      | okDone =>
        simp only [stepTick] at hstep
        by_cases hp : s0.pending = 0
        · rw [if_pos hp] at hstep; exact absurd hstep (by simp)
        · rw [if_neg hp] at hstep
          injection hstep with hstep
          subst hstep
          simp [countOk] at hrec ⊢
          omega
      | errDone =>
        simp only [stepTick] at hstep
        by_cases hp : s0.pending = 0
        · rw [if_pos hp] at hstep; exact absurd hstep (by simp)
        · rw [if_neg hp] at hstep
          injection hstep with hstep
          subst hstep
          simpa [countOk] using hrec

theorem runFrom_seqOk (k : Nat) :
    ∀ (m j sc : Nat), j + (m + 1) = k →
      runFrom k true (midSt j sc) (seqOkTrace (m + 1)) = some ⟨k, false, 0, k, sc + m, 0⟩ := by
  intro m
  induction m with
  | zero =>
    intro j sc hj
    have hk : k ≤ j + 1 := by omega
    have hjk : j + 1 = k := by omega
    rw [show seqOkTrace 1 = [TickEv.okDone] from rfl, runFrom_cons]
    have hstep : stepTick k true (midSt j sc) .okDone = some ⟨j + 1, false, 0, j + 1, sc, 0⟩ := by
      simp [stepTick, midSt, hk]
    rw [hstep]
    simp only [Option.some_bind, runFrom_nil, hjk, Nat.add_zero]
  | succ n ih =>
    intro j sc hj
    have h1 : ¬ (k ≤ j + 1) := by omega
    rw [show seqOkTrace (n + 2) = TickEv.okDone :: TickEv.fire :: seqOkTrace (n + 1) from rfl,
      runFrom_cons]
    have hstep1 : stepTick k true (midSt j sc) .okDone
        = some ⟨j + 1, true, 0, j + 1, sc, 0⟩ := by
      simp [stepTick, midSt, h1]
    rw [hstep1]
    simp only [Option.some_bind]
    rw [runFrom_cons]
    have hstep2 : stepTick k true ⟨j + 1, true, 0, j + 1, sc, 0⟩ .fire
        = some (midSt (j + 1) (sc + 1)) := by
      simp [stepTick, midSt]
    rw [hstep2]
    simp only [Option.some_bind]
    have hrec := ih (j + 1) (sc + 1) (by omega)
    rw [hrec]
    have harith : sc + 1 + n = sc + (n + 1) := by omega
    rw [harith]

theorem runFrom_seqOk_unlimited (L : Nat) :
    ∀ (m j sc : Nat), j + (m + 1) < L →
      runFrom L true (midSt j sc) (seqOkTrace (m + 1))
        = some ⟨j + (m + 1), true, 0, j + (m + 1), sc + m, 0⟩ := by
  intro m
  induction m with
  | zero =>
    intro j sc hj
    have hk : ¬ (L ≤ j + 1) := by omega
    rw [show seqOkTrace 1 = [TickEv.okDone] from rfl, runFrom_cons]
    have hstep : stepTick L true (midSt j sc) .okDone = some ⟨j + 1, true, 0, j + 1, sc, 0⟩ := by
      simp [stepTick, midSt, hk]
    rw [hstep]
    simp only [Option.some_bind, runFrom_nil]
    simp
  | succ n ih =>
    intro j sc hj
    have h1 : ¬ (L ≤ j + 1) := by omega
    rw [show seqOkTrace (n + 2) = TickEv.okDone :: TickEv.fire :: seqOkTrace (n + 1) from rfl,
      runFrom_cons]
    have hstep1 : stepTick L true (midSt j sc) .okDone
        = some ⟨j + 1, true, 0, j + 1, sc, 0⟩ := by
      simp [stepTick, midSt, h1]
    rw [hstep1]
    simp only [Option.some_bind]
    rw [runFrom_cons]
    have hstep2 : stepTick L true ⟨j + 1, true, 0, j + 1, sc, 0⟩ .fire
        = some (midSt (j + 1) (sc + 1)) := by
      simp [stepTick, midSt]
    rw [hstep2]
    simp only [Option.some_bind]
    have hrec := ih (j + 1) (sc + 1) (by omega)
    rw [hrec]
    have ha1 : j + 1 + (n + 1) = j + (n + 1 + 1) := by omega
    have ha2 : sc + 1 + n = sc + (n + 1) := by omega
    rw [ha1, ha2]

/-! ## C2: params serialization across ticks -/

/-- C2: the serializer is invoked exactly once per tick, not at most once
per poller — `start`'s per-tick closure constructs a fresh
`ParamsOnce::Typed(self.params.clone())` inside each spawned tick body, so
the cached `Serialized` form never survives to the next tick: after the
initial poll and `n` further timer ticks the serializer has run `1 + n`
times (the witness evaluates a two-tick schedule to 2 serializations,
where the claim allows at most 1). -/
theorem poller_serializes_once_per_tick (limit : Nat) (serOk : Bool) (evs : List TickEv)
    (s : PollSt) (h : runTicks limit serOk evs = some s) :
    s.serCalls = 1 + countFire evs := by
  have hs := runFrom_serCalls limit serOk evs (startSt serOk) s h
  simpa [startSt] using hs

/-- Witness for C2: a schedule of two ticks (the initial poll plus one
timer tick) performs two serializations. -/
theorem poller_serializes_once_per_tick_witness :
    runTicks usizeMax true [TickEv.fire] = some ⟨0, true, 2, 0, 2, 0⟩
    ∧ (2 : Nat) = 1 + countFire [TickEv.fire] := by
  refine ⟨by decide, ?_⟩
  exact poller_serializes_once_per_tick usizeMax true [TickEv.fire] ⟨0, true, 2, 0, 2, 0⟩
    (by decide)

/-! ## C3: callback count and the success limit -/

/-- C3 (counterexample to the claim as stated): with limit 1 and two
overlapping in-flight ticks (the second timer tick fires before the first
request completes, which the interval-based timer permits), both
completions invoke the callback: 2 invocations exceed the configured
limit 1. -/
theorem poller_limit_overshoot_cex :
    runTicks 1 true [TickEv.fire, TickEv.okDone, TickEv.okDone]
      = some ⟨2, false, 0, 2, 2, 0⟩ := by decide

/-- C3 (amended): the callback is invoked exactly once per successful
completion (never more, in particular at most once per successful tick);
on a sequential schedule — every tick's request completes before the next
tick fires — a poller with limit `k ≥ 1` invokes the callback exactly `k`
times, the timer is invalidated at the k-th success and no further tick
can fire; with no limit set (`usize::MAX`) the callback runs once per
successful tick with the timer still scheduled.  With overlapping
in-flight ticks the total can exceed `k` (see the counterexample). -/
theorem poller_limit_amended :
    (∀ (limit : Nat) (serOk : Bool) (evs : List TickEv) (s : PollSt),
        runTicks limit serOk evs = some s →
          s.callbacks = countOk evs ∧ s.pollCount = countOk evs)
    ∧ (∀ k : Nat, 1 ≤ k →
        runTicks k true (seqOkTrace k) = some ⟨k, false, 0, k, k, 0⟩
          ∧ stepTick k true ⟨k, false, 0, k, k, 0⟩ .fire = none)
    ∧ (∀ k : Nat, 1 ≤ k → k < usizeMax →
        runTicks usizeMax true (seqOkTrace k) = some ⟨k, true, 0, k, k, 0⟩) := by
  refine ⟨fun limit serOk evs s h => ?_, fun k hk => ?_, fun k hk hk2 => ?_⟩
  · have hc := runFrom_counts limit serOk evs (startSt serOk) s h
    simpa [startSt] using hc
  · cases k with
    | zero => exact absurd hk (by omega)
    | succ m =>
      constructor
      · have h := runFrom_seqOk (m + 1) m 0 1 (by omega)
        have harith : 1 + m = m + 1 := by omega
        rw [harith] at h
        exact h
      · simp [stepTick]
  · cases k with
    | zero => exact absurd hk (by omega)
    | succ m =>
      have h := runFrom_seqOk_unlimited usizeMax m 0 1 (by omega)
      have ha1 : 0 + (m + 1) = m + 1 := by omega
      have ha2 : 1 + m = m + 1 := by omega
      rw [ha1, ha2] at h
      exact h

/-- Witness for C3 (amended): the general count conjunct at a concrete
one-success schedule, the exact-limit conjunct at `k = 2`, and the
unlimited conjunct at `k = 3`. -/
theorem poller_limit_amended_witness :
    ((⟨1, true, 0, 1, 1, 0⟩ : PollSt).callbacks = countOk [TickEv.okDone]
        ∧ (⟨1, true, 0, 1, 1, 0⟩ : PollSt).pollCount = countOk [TickEv.okDone])
    ∧ (runTicks 2 true (seqOkTrace 2) = some ⟨2, false, 0, 2, 2, 0⟩
        ∧ stepTick 2 true ⟨2, false, 0, 2, 2, 0⟩ .fire = none)
    ∧ runTicks usizeMax true (seqOkTrace 3) = some ⟨3, true, 0, 3, 3, 0⟩ :=
  ⟨poller_limit_amended.1 5 true [TickEv.okDone] ⟨1, true, 0, 1, 1, 0⟩ (by decide),
   poller_limit_amended.2.1 2 (by decide),
   poller_limit_amended.2.2 3 (by decide) (by decide)⟩

/-! ## C8: `into_stream` -/

/-- C8 (counterexample to the claim as stated): converting a concrete
poller into a stream does not produce an unsupported-operation error
value — there is no error channel in `into_stream`'s signature at all; it
panics with "Streams cannot be used ICP canisters." (the `stream::empty()`
expression after the `panic!` is unreachable dead code and is never
returned). -/
theorem into_stream_panics_cex :
    (IcpPollerBuilder.new true 7 "eth_blockNumber" (0 : Nat)).into_stream Nat
      = PanicOr.panic "Streams cannot be used ICP canisters."
    ∧ ((IcpPollerBuilder.new true 7 "eth_blockNumber" (0 : Nat)).into_stream Nat).isPanic
      = true :=
  ⟨rfl, rfl⟩

/-- C8 (amended): `into_stream` fails fast on every poller — it always
panics with an explicit message and never returns a stream, so it neither
silently returns an empty sequence nor reaches the dead `stream::empty()`
fabrication; but the fault is a panic (abort), not an error value. -/
theorem into_stream_amended {Params : Type} (Resp : Type) (b : IcpPollerBuilder Params) :
    b.into_stream Resp = PanicOr.panic "Streams cannot be used ICP canisters."
    ∧ (b.into_stream Resp).isPanic = true :=
  ⟨rfl, rfl⟩

/-! ## C9: idempotent `stop` -/

/-- C9: `stop` is idempotent — it returns no error (it is a total
function), a second `stop`, after the handle was taken by the first,
changes nothing and performs no `clear_timer` call; and a `stop` whose
handle was already cancelled in the host (e.g. by the limit path) leaves
the host's timer set unchanged, `clear_timer` on an absent id being a
no-op. -/
theorem stop_idempotent {Params : Type} (b : IcpPollerBuilder Params) (active : List Nat) :
    ((b.stop active).1.1.stop (b.stop active).1.2).1 = (b.stop active).1
    ∧ ((b.stop active).1.1.stop (b.stop active).1.2).2 = []
    ∧ ∀ id, b.timer_id = some id → id ∉ active → (b.stop active).1.2 = active := by
  obtain ⟨alive, method, params, pi, lim, tid⟩ := b
  cases tid with
  | none =>
    refine ⟨rfl, rfl, ?_⟩
    intro id h
    exact absurd h (by simp)
  | some id0 =>
    refine ⟨rfl, rfl, ?_⟩
    intro id h hmem
    injection h with h
    subst h
    simp only [IcpPollerBuilder.stop, clear_timer]
    exact List.erase_of_not_mem hmem

/-- Witness for C9 at a concrete builder holding timer id 3 and a host
set not containing it. -/
theorem stop_idempotent_witness :
    (((IcpPollerBuilder.mk true "eth_getLogs" (0 : Nat) 7 5 (some 3)).stop [9]).1.1.stop
        (((IcpPollerBuilder.mk true "eth_getLogs" (0 : Nat) 7 5 (some 3)).stop [9]).1.2)).1
      = ((IcpPollerBuilder.mk true "eth_getLogs" (0 : Nat) 7 5 (some 3)).stop [9]).1
    ∧ (((IcpPollerBuilder.mk true "eth_getLogs" (0 : Nat) 7 5 (some 3)).stop [9]).1.1.stop
        (((IcpPollerBuilder.mk true "eth_getLogs" (0 : Nat) 7 5 (some 3)).stop [9]).1.2)).2
      = []
    ∧ ((IcpPollerBuilder.mk true "eth_getLogs" (0 : Nat) 7 5 (some 3)).stop [9]).1.2 = [9] :=
  have h := stop_idempotent (IcpPollerBuilder.mk true "eth_getLogs" (0 : Nat) 7 5 (some 3)) [9]
  ⟨h.1, h.2.1, h.2.2 3 rfl (by decide)⟩

/-! ## C10: transport failure leaves the schedule intact -/

/-- C10: a tick whose relay call fails at the transport layer reports the
failure (one more "Request failed" log line) but invokes no callback,
leaves the success counter untouched, leaves the timer exactly as it was
(so the schedule keeps ticking), and leaves the serializer count
unchanged; only the in-flight count drops by one. -/
theorem transport_failure_frame (limit : Nat) (serOk : Bool) (s s2 : PollSt)
    (h : stepTick limit serOk s .errDone = some s2) :
    s2.callbacks = s.callbacks ∧ s2.pollCount = s.pollCount
    ∧ s2.timerScheduled = s.timerScheduled ∧ s2.serCalls = s.serCalls
    ∧ s2.failLogs = s.failLogs + 1 ∧ s2.pending + 1 = s.pending := by
  simp only [stepTick] at h
  by_cases hp : s.pending = 0
  · rw [if_pos hp] at h
    exact absurd h (by simp)
  · rw [if_neg hp] at h
    injection h with h
    subst h
    refine ⟨rfl, rfl, rfl, rfl, rfl, ?_⟩
    show s.pending - 1 + 1 = s.pending
    omega

/-- Witness for C10: a transport failure of the initial in-flight poll. -/
theorem transport_failure_frame_witness :
    stepTick 5 true (startSt true) TickEv.errDone = some ⟨0, true, 0, 0, 1, 1⟩
    ∧ ((⟨0, true, 0, 0, 1, 1⟩ : PollSt).callbacks = (startSt true).callbacks
        ∧ (⟨0, true, 0, 0, 1, 1⟩ : PollSt).pollCount = (startSt true).pollCount
        ∧ (⟨0, true, 0, 0, 1, 1⟩ : PollSt).timerScheduled = (startSt true).timerScheduled
        ∧ (⟨0, true, 0, 0, 1, 1⟩ : PollSt).serCalls = (startSt true).serCalls
        ∧ (⟨0, true, 0, 0, 1, 1⟩ : PollSt).failLogs = (startSt true).failLogs + 1
        ∧ (⟨0, true, 0, 0, 1, 1⟩ : PollSt).pending + 1 = (startSt true).pending) :=
  ⟨by decide, transport_failure_frame 5 true (startSt true) ⟨0, true, 0, 0, 1, 1⟩ (by decide)⟩

end IcAlloy
